import Mathlib

/-!
Verification of the meteobe repository (Meteoblue weather/soil data extractor).

This file shallowly embeds the decision logic of the two extractor scripts,
`src/meteobe/meteoblue_data_extractor.py` (the packaged, protobuf-based
extractor) and `cehub_best_domains_trial.py` (the JSON-based trial script):
the per-country domain resolution, the weather and soil query builders, the
response flatteners with their column-name synthesis, the codes-table lookup,
and the date-offset time-window derivation.  Python strings are modelled as
Lean `String`s manipulated on their character lists; Python dicts are
modelled as association lists with Python's update semantics; operations
that can raise (`s[0]` on an empty string, `lst[0]` on an empty list,
missing dict keys) return `Option`, with `none` standing for the raised
exception.  Numeric data payloads in responses (floats in the source) are
never computed with, only stored; they are modelled as opaque `Int` scalars.
-/

namespace Meteobe

/-! ## Constants (module-level constants of both scripts) -/

def DOMAIN_NEMSGLOBAL : String := "NEMSGLOBAL"
def DOMAIN_ERA5 : String := "ERA5"
def DOMAIN_ERA5T : String := "ERA5T"
def DOMAIN_SOILGRIDS2 : String := "SOILGRIDS2"

def DEFAULT : String := "default"

-- Weather codes
def TEMP : Int := 11
def PRECIPITATION : Int := 61
def HUMIDITY : Int := 52
def WIND_SPEED : Int := 32
def WIND_DIRECTION : Int := 735
def CLOUDS_TOTAL : Int := 71
def CLOUDS_HIGH : Int := 75
def CLOUDS_MEDIUM : Int := 74
def CLOUDS_LOW : Int := 73
def SUNSHINE_DURATION : Int := 191
def SHORTWAVE_RADIATION_TOTAL : Int := 204
def SHORTWAVE_RADIATION_DIRECT : Int := 258
def SHORTWAVE_RADIATION_DIFFUSE : Int := 256
def EVAPOTRANSPIRATION : Int := 261
def SOIL_TEMP : Int := 85
def SOIL_MOISTURE : Int := 144
def VAPPRESS_DEFICIT : Int := 56
def UV_MEAN : Int := 721

-- Weather levels
def LVL_2M_ELV_CORRECTED : String := "2 m elevation corrected"
def LVL_2M_ABV_GND : String := "2 m above gnd"
def LVL_SFC : String := "sfc"
def LVL_HIGH_CLD_LAY : String := "high cld lay"
def LVL_MID_CLD_LAY : String := "mid cld lay"
def LVL_LOW_CLD_LAY : String := "low cld lay"
def LVL_10CM_DOWN : String := "0-10 cm down"
def LVL_10M_ABV_GND : String := "10 m above gnd"

-- Soil codes
def BULK_DENSITY : Int := 808
def CATION_EXCHANGE_CAPACITY : Int := 809
def CLAY_CONTENT_MASS_FRACTION : Int := 803
def COARSE_FRAGMENTS_VOLUMETRIC_FRACTION : Int := 807
def ORGANIC_CARBON_CONTENT : Int := 811
def ORGANIC_CARBON_DENSITY : Int := 838
def ORGANIC_CARBON_STOCKS : Int := 837
def SAND_CONTENT_MASS_FRACTION : Int := 805
def SILT_CONTENT_MASS_FRACTION : Int := 804
def TOTAL_NITROGEN_CONTENT : Int := 817
def PH_IN_H20 : Int := 812

-- Soil levels and depths
def LVL_AGGREGATE : String := "aggregated"
def LVL_30 : String := "0-30 cm"
def START_DEPTH_0 : Int := 0
def END_DEPTH_30 : Int := 30
def END_DEPTH_60 : Int := 60

-- Time resolution
def TIME_RESOLUTION_DAILY : String := "daily"
def TIME_RESOLUTION_HOURLY : String := "hourly"

-- Aggregations
def MAX : String := "max"
def MIN : String := "min"
def MEAN : String := "mean"
def SUM : String := "sum"

def DATES : String := "Dates"

/-! ## Python string and dict primitives -/

/-- Python `s.upper()` (character-wise uppercasing). -/
def pyUpper (s : String) : String := ⟨s.data.map Char.toUpper⟩

/-- Python `s.replace(old, new)` for a one-character pattern, as used by the
source (`.replace(' ', '_')`): every occurrence of the character is
replaced. -/
def pyReplace (s : String) (old new : Char) : String :=
  ⟨s.data.map (fun c => if c = old then new else c)⟩

/-- Python `''.join([agg[0].upper(), agg[1:]])`: uppercase the first
character, keep the rest.  `agg[0]` raises `IndexError` on the empty
string, modelled by `none`. -/
def pyTitleFirst (agg : String) : Option String :=
  match agg.data with
  | [] => none
  | c :: cs => some ⟨Char.toUpper c :: cs⟩

/-- Python `str(x)` for an optional string (the JSON script applies `str`
to a field that may be JSON `null`, i.e. Python `None`). -/
def pyStr : Option String → String
  | some s => s
  | none => "None"

/-- Python `d.get(k)` on a string-valued dict (association list; keys are
unique in a Python dict, lookup takes the binding for `k` if present). -/
def dictGet (m : List (String × String)) (k : String) : Option String :=
  (m.find? (fun p => p.1 == k)).map Prod.snd

/-! ## Domain resolution

`build_weather_data_query_best_dataset` resolves each of the three domain
maps with `domain_map.get(country_code, domain_map.get(DEFAULT.upper()))`
(lines 167-169 of `meteoblue_data_extractor.py`, lines 233-235 of
`cehub_best_domains_trial.py`).  We name that inline expression
`resolve_domain`. -/

def resolve_domain (domain_map : List (String × String)) (country_code : String) :
    Option String :=
  match dictGet domain_map country_code with
  | some v => some v
  | none => dictGet domain_map (pyUpper DEFAULT)

/-! ## Query model

A query block is a Python dict; fields that a given block's dict literal
omits are `none` (e.g. weather code entries carry no `startDepth`, the
organic-carbon-stocks soil entry carries no `startDepth`/`endDepth`).
`gapFillDomain` is present-with-null in the fifth weather block only, hence
`Option (Option String)`. -/

structure QueryCode where
  code : Int
  level : String
  aggregation : Option String := none
  startDepth : Option Int := none
  endDepth : Option Int := none
  deriving DecidableEq

structure Transformation where
  type : String
  aggregation : String
  deriving DecidableEq

structure QueryBlock where
  domain : Option String
  gapFillDomain : Option (Option String) := none
  timeResolution : Option String := none
  codes : List QueryCode
  transformations : List Transformation := []
  deriving DecidableEq

/-- The function `build_weather_data_query_best_dataset` (identical in both scripts):
five blocks — fixed NEMSGLOBAL daily block, temperature block, precipitation
block, wind block (the resolved domains), and the fixed ERA5 hourly UV block
with its aggregate-to-daily-mean transformation. -/
def build_weather_data_query_best_dataset (country_code : String)
    (precipitation_domains temperature_domains wind_domains : List (String × String)) :
    List QueryBlock :=
  let domain_precipitation := resolve_domain precipitation_domains country_code
  let domain_temp := resolve_domain temperature_domains country_code
  let domain_wind := resolve_domain wind_domains country_code
  [{ domain := some DOMAIN_NEMSGLOBAL
     timeResolution := some TIME_RESOLUTION_DAILY
     codes := [
       { code := HUMIDITY, level := LVL_2M_ABV_GND, aggregation := some MAX },
       { code := HUMIDITY, level := LVL_2M_ABV_GND, aggregation := some MIN },
       { code := HUMIDITY, level := LVL_2M_ABV_GND, aggregation := some MEAN },
       { code := CLOUDS_TOTAL, level := LVL_SFC, aggregation := some MEAN },
       { code := CLOUDS_HIGH, level := LVL_HIGH_CLD_LAY, aggregation := some MEAN },
       { code := CLOUDS_MEDIUM, level := LVL_MID_CLD_LAY, aggregation := some MEAN },
       { code := CLOUDS_LOW, level := LVL_LOW_CLD_LAY, aggregation := some MEAN },
       { code := SUNSHINE_DURATION, level := LVL_SFC, aggregation := some SUM },
       { code := SHORTWAVE_RADIATION_TOTAL, level := LVL_SFC, aggregation := some MEAN },
       { code := SHORTWAVE_RADIATION_DIRECT, level := LVL_SFC, aggregation := some MEAN },
       { code := SHORTWAVE_RADIATION_DIFFUSE, level := LVL_SFC, aggregation := some MEAN },
       { code := EVAPOTRANSPIRATION, level := LVL_SFC, aggregation := some SUM },
       { code := SOIL_TEMP, level := LVL_10CM_DOWN, aggregation := some MAX },
       { code := SOIL_TEMP, level := LVL_10CM_DOWN, aggregation := some MIN },
       { code := SOIL_TEMP, level := LVL_10CM_DOWN, aggregation := some MEAN },
       { code := SOIL_MOISTURE, level := LVL_10CM_DOWN, aggregation := some MAX },
       { code := SOIL_MOISTURE, level := LVL_10CM_DOWN, aggregation := some MIN },
       { code := SOIL_MOISTURE, level := LVL_10CM_DOWN, aggregation := some MEAN },
       { code := VAPPRESS_DEFICIT, level := LVL_2M_ABV_GND, aggregation := some MAX },
       { code := VAPPRESS_DEFICIT, level := LVL_2M_ABV_GND, aggregation := some MIN },
       { code := VAPPRESS_DEFICIT, level := LVL_2M_ABV_GND, aggregation := some MEAN }] },
   { domain := domain_temp
     timeResolution := some TIME_RESOLUTION_DAILY
     codes := [
       { code := TEMP, level := LVL_2M_ELV_CORRECTED, aggregation := some MAX },
       { code := TEMP, level := LVL_2M_ELV_CORRECTED, aggregation := some MIN },
       { code := TEMP, level := LVL_2M_ELV_CORRECTED, aggregation := some MEAN }] },
   { domain := domain_precipitation
     timeResolution := some TIME_RESOLUTION_DAILY
     codes := [
       { code := PRECIPITATION, level := LVL_SFC, aggregation := some SUM }] },
   { domain := domain_wind
     timeResolution := some TIME_RESOLUTION_DAILY
     codes := [
       { code := WIND_SPEED, level := LVL_10M_ABV_GND, aggregation := some MAX },
       { code := WIND_SPEED, level := LVL_10M_ABV_GND, aggregation := some MIN },
       { code := WIND_SPEED, level := LVL_10M_ABV_GND, aggregation := some MEAN },
       { code := WIND_DIRECTION, level := LVL_10M_ABV_GND }] },
   { domain := some DOMAIN_ERA5
     gapFillDomain := some none
     timeResolution := some TIME_RESOLUTION_HOURLY
     codes := [
       { code := UV_MEAN, level := LVL_SFC }]
     transformations := [
       { type := "aggregateDaily", aggregation := MEAN }] }]

/-- The function `build_soil_query` (identical in both scripts): one SOILGRIDS2 block
with eleven fixed codes; all are banded with the caller's depths except the
organic-carbon-stocks entry, which carries the fixed level "0-30 cm" and no
depth fields. -/
def build_soil_query (start_depth end_depth : Int) : QueryBlock :=
  { domain := some DOMAIN_SOILGRIDS2
    codes := [
      { code := BULK_DENSITY, level := LVL_AGGREGATE,
        startDepth := some start_depth, endDepth := some end_depth },
      { code := CATION_EXCHANGE_CAPACITY, level := LVL_AGGREGATE,
        startDepth := some start_depth, endDepth := some end_depth },
      { code := CLAY_CONTENT_MASS_FRACTION, level := LVL_AGGREGATE,
        startDepth := some start_depth, endDepth := some end_depth },
      { code := COARSE_FRAGMENTS_VOLUMETRIC_FRACTION, level := LVL_AGGREGATE,
        startDepth := some start_depth, endDepth := some end_depth },
      { code := ORGANIC_CARBON_CONTENT, level := LVL_AGGREGATE,
        startDepth := some start_depth, endDepth := some end_depth },
      { code := ORGANIC_CARBON_DENSITY, level := LVL_AGGREGATE,
        startDepth := some start_depth, endDepth := some end_depth },
      { code := ORGANIC_CARBON_STOCKS, level := LVL_30 },
      { code := SAND_CONTENT_MASS_FRACTION, level := LVL_AGGREGATE,
        startDepth := some start_depth, endDepth := some end_depth },
      { code := SILT_CONTENT_MASS_FRACTION, level := LVL_AGGREGATE,
        startDepth := some start_depth, endDepth := some end_depth },
      { code := TOTAL_NITROGEN_CONTENT, level := LVL_AGGREGATE,
        startDepth := some start_depth, endDepth := some end_depth },
      { code := PH_IN_H20, level := LVL_AGGREGATE,
        startDepth := some start_depth, endDepth := some end_depth }] }

/-! ## Codes table and variable lookup -/

/-- One entry of the loaded `codes.json` table (`code`/`variable` are the
fields `lookup_variable_by_code` reads; `variable` is a Lean keyword, hence
the trailing underscore). -/
structure CodeEntry where
  code : Int
  variable_ : String
  deriving DecidableEq

/-- The method `MeteoBlueConnector.lookup_variable_by_code`: scans the whole table
without early exit, keeping the variable of each matching entry in turn;
returns the initial empty string when no entry matches. -/
def lookup_variable_by_code (codes_lst : List CodeEntry) (code : Int) : String :=
  codes_lst.foldl (fun variable_ d => if d.code = code then d.variable_ else variable_) ""

/-! ## Column-name synthesis -/

/-- The weather column-name expression of both flatteners
(`meteoblue_data_extractor.py` line 432, `cehub_best_domains_trial.py`
lines 487-488): `var.replace(' ', '_') + '_(' + ''.join([agg[0].upper(),
agg[1:]]) + ')_(' + unit + ')'`.  `none` models the `IndexError` that
`agg[0]` raises when the aggregation string is empty. -/
def weather_column_name (var agg unit : String) : Option String :=
  (pyTitleFirst agg).map
    (fun a => pyReplace var ' ' '_' ++ "_(" ++ a ++ ")_(" ++ unit ++ ")")

/-- The soil column-name branch of `convert_soil_json_to_dict`
(`meteoblue_data_extractor.py` lines 461-467): depth-range middle segment
when the level is `LVL_AGGREGATE`, otherwise the raw level string. -/
def soil_column_name (var level : String) (start_depth end_depth : Int) (unit : String) :
    String :=
  if level = LVL_AGGREGATE then
    pyReplace var ' ' '_' ++ "_(" ++ toString start_depth ++ "-" ++
      toString end_depth ++ ")_(" ++ unit ++ ")"
  else
    pyReplace var ' ' '_' ++ "_(" ++ level ++ ")_(" ++ unit ++ ")"

/-! ## Response dictionaries

The flatteners build one Python dict per response.  Values are
heterogeneous: strings (ids, the JSON script's single time-interval label),
numeric scalars (coordinates, the JSON script's single data point), numeric
arrays (the protobuf script stores a whole data array), and the protobuf
script's list of expanded timestamps. -/

inductive DVal where
  | str (s : String)
  | num (x : Int)
  | numList (l : List Int)
  | timestampList (l : List Int)
  deriving DecidableEq

abbrev Dict := List (String × DVal)

/-- Python `d[k] = v`: overwrite in place when the key exists (keeping
insertion order), otherwise append the new binding. -/
def dictInsert (d : Dict) (k : String) (v : DVal) : Dict :=
  if d.any (fun p => p.1 == k) then
    d.map (fun p => if p.1 == k then (k, v) else p)
  else
    d ++ [(k, v)]

/-- Python `d[k]` as a query (first binding for `k`; keys are unique). -/
def dictLookup (d : Dict) (k : String) : Option DVal :=
  (d.find? (fun p => p.1 == k)).map Prod.snd

/-! ## Protobuf response model (meteoblue_data_extractor.py)

`DatasetApiProtobuf`: geometries with `lats`/`lons`, geometry-level time
intervals (`start`/`end`/`stride` timestamps), and per-code time intervals
carrying a data array.  In proto3 every scalar field is present (defaulted),
so `PbCode` fields are total; list indexing stays partial. -/

structure PbTimeInterval where
  start : Int
  end_ : Int
  stride : Int
  deriving DecidableEq

structure PbCodeTimeInterval where
  data : List Int
  deriving DecidableEq

structure PbCode where
  code : Int
  level : String
  aggregation : String
  unit : String
  startDepth : Int
  endDepth : Int
  timeIntervals : List PbCodeTimeInterval
  deriving DecidableEq

structure PbGeometry where
  lats : List Int
  lons : List Int
  timeIntervals : List PbTimeInterval
  codes : List PbCode
  deriving DecidableEq

structure PbResult where
  geometries : List PbGeometry
  deriving DecidableEq

/-- Python `range(start, end, stride)` (`ValueError` on stride 0). -/
def pyRange (start stop stride : Int) : Option (List Int) :=
  if stride = 0 then none
  else if 0 < stride then
    some ((List.range (((stop - start).toNat + stride.toNat - 1) / stride.toNat)).map
      (fun n => start + stride * n))
  else
    some ((List.range (((start - stop).toNat + (-stride).toNat - 1) / (-stride).toNat)).map
      (fun n => start + stride * n))

/-- The method `MeteoBlueConnector.convert_timeinterval_to_list`: one entry per element
of `range(start, end, stride)`.  The source renders each timestamp with
`datetime.fromtimestamp(n).strftime(...)`; that string rendering is
presentation only and the model keeps the raw timestamps. -/
def convert_timeinterval_to_list (start end_ stride : Int) : Option (List Int) :=
  pyRange start end_ stride

/-- One iteration of the codes loop of `convert_weather_json_to_dict`
(lines 427-433): look the variable up in the codes table, synthesize the
column name from the aggregation, and store the code's
`timeIntervals[0].data` array. -/
def weather_code_step (codes_lst : List CodeEntry) (d : Dict) (c : PbCode) : Option Dict := do
  let ti0 ← c.timeIntervals.head?
  let name ← weather_column_name (lookup_variable_by_code codes_lst c.code)
    c.aggregation c.unit
  pure (dictInsert d name (DVal.numList ti0.data))

/-- The codes `for` loop, with exception propagation. -/
def weather_codes_loop (codes_lst : List CodeEntry) : Dict → List PbCode → Option Dict
  | d, [] => some d
  | d, c :: cs =>
    match weather_code_step codes_lst d c with
    | none => none
    | some d' => weather_codes_loop codes_lst d' cs

/-- One iteration of the geometries loop of `convert_weather_json_to_dict`
(lines 414-433): store `lats[0]`/`lons[0]`, expand the first geometry time
interval into the `Dates` list, then run the codes loop. -/
def weather_geometry_step (codes_lst : List CodeEntry) (lat_col lon_col : String)
    (d : Dict) (g : PbGeometry) : Option Dict := do
  let lat ← g.lats.head?
  let lon ← g.lons.head?
  let ti0 ← g.timeIntervals.head?
  let dates ← convert_timeinterval_to_list ti0.start ti0.end_ ti0.stride
  let d := dictInsert d lat_col (DVal.num lat)
  let d := dictInsert d lon_col (DVal.num lon)
  let d := dictInsert d DATES (DVal.timestampList dates)
  weather_codes_loop codes_lst d g.codes

def weather_geometries_loop (codes_lst : List CodeEntry) (lat_col lon_col : String) :
    Dict → List PbGeometry → Option Dict
  | d, [] => some d
  | d, g :: gs =>
    match weather_geometry_step codes_lst lat_col lon_col d g with
    | none => none
    | some d' => weather_geometries_loop codes_lst lat_col lon_col d' gs

/-- The method `MeteoBlueConnector.convert_weather_json_to_dict`: starts from
`{id_col: id_value}` and folds every geometry into the dict; any raised
exception (empty list indexed, empty aggregation string) aborts the record
(`none`), which the `__main__` loop counts as a failed record. -/
def convert_weather_json_to_dict (codes_lst : List CodeEntry) (lat_col lon_col : String)
    (result : PbResult) (id_col id_value : String) : Option Dict :=
  weather_geometries_loop codes_lst lat_col lon_col [(id_col, DVal.str id_value)]
    result.geometries

/-- One iteration of the codes loop of `convert_soil_json_to_dict`
(lines 455-469). -/
def soil_code_step (codes_lst : List CodeEntry) (d : Dict) (c : PbCode) : Option Dict := do
  let ti0 ← c.timeIntervals.head?
  pure (dictInsert d
    (soil_column_name (lookup_variable_by_code codes_lst c.code) c.level
      c.startDepth c.endDepth c.unit)
    (DVal.numList ti0.data))

def soil_codes_loop (codes_lst : List CodeEntry) : Dict → List PbCode → Option Dict
  | d, [] => some d
  | d, c :: cs =>
    match soil_code_step codes_lst d c with
    | none => none
    | some d' => soil_codes_loop codes_lst d' cs

/-- One iteration of the geometries loop of `convert_soil_json_to_dict`
(lines 447-469): no `Dates` entry for soil. -/
def soil_geometry_step (codes_lst : List CodeEntry) (lat_col lon_col : String)
    (d : Dict) (g : PbGeometry) : Option Dict := do
  let lat ← g.lats.head?
  let lon ← g.lons.head?
  let d := dictInsert d lat_col (DVal.num lat)
  let d := dictInsert d lon_col (DVal.num lon)
  soil_codes_loop codes_lst d g.codes

def soil_geometries_loop (codes_lst : List CodeEntry) (lat_col lon_col : String) :
    Dict → List PbGeometry → Option Dict
  | d, [] => some d
  | d, g :: gs =>
    match soil_geometry_step codes_lst lat_col lon_col d g with
    | none => none
    | some d' => soil_geometries_loop codes_lst lat_col lon_col d' gs

/-- The method `MeteoBlueConnector.convert_soil_json_to_dict`. -/
def convert_soil_json_to_dict (codes_lst : List CodeEntry) (lat_col lon_col : String)
    (result : PbResult) (id_col id_value : String) : Option Dict :=
  soil_geometries_loop codes_lst lat_col lon_col [(id_col, DVal.str id_value)]
    result.geometries

/-! ## JSON response model (cehub_best_domains_trial.py)

The trial script reads the REST JSON response: each item carries a geometry
(`coordinates`, `locationNames`), a list of time-interval labels, and codes
whose fields are JSON keys — `aggregation` may be `null` (Python `None`) and
`startDepth`/`endDepth` may be absent (a `KeyError` when accessed), hence
`Option`.  Each code carries `dataPerTimeInterval`, a list of per-interval
`data` arrays. -/

structure JDataPerInterval where
  data : List Int
  deriving DecidableEq

structure JCode where
  code : Int
  variable_ : String
  aggregation : Option String
  unit : String
  level : String
  startDepth : Option Int
  endDepth : Option Int
  dataPerTimeInterval : List JDataPerInterval
  deriving DecidableEq

structure JGeometry where
  coordinates : List (List Int)
  locationNames : List String
  deriving DecidableEq

structure JItem where
  geometry : JGeometry
  timeIntervals : List String
  codes : List JCode
  deriving DecidableEq

/-- One iteration of the codes loop of
`CeHubConnector.convert_weather_json_to_dict` (lines 484-488): the variable
name comes from the response, `str(...)` renders a `null` aggregation as
"None", and the stored value is `dataPerTimeInterval[0]['data'][0]` — the
first element of the first interval's data array. -/
def cehub_weather_code_step (d : Dict) (c : JCode) : Option Dict := do
  let agg := pyStr c.aggregation
  let dpi0 ← c.dataPerTimeInterval.head?
  let v0 ← dpi0.data.head?
  let name ← weather_column_name c.variable_ agg c.unit
  pure (dictInsert d name (DVal.num v0))

def cehub_weather_codes_loop : Dict → List JCode → Option Dict
  | d, [] => some d
  | d, c :: cs =>
    match cehub_weather_code_step d c with
    | none => none
    | some d' => cehub_weather_codes_loop d' cs

/-- One iteration of the response loop of
`CeHubConnector.convert_weather_json_to_dict` (lines 469-488): trial id from
`locationNames[0]`, the two coordinates, the single time-interval label
`json['timeIntervals'][0]`, then the codes loop. -/
def cehub_weather_item_step (trial_col lat_col long_col : String)
    (d : Dict) (item : JItem) : Option Dict := do
  let coordinates ← item.geometry.coordinates.head?
  let loc0 ← item.geometry.locationNames.head?
  let c0 ← coordinates.head?
  let c1 ← coordinates.get? 1
  let ti0 ← item.timeIntervals.head?
  let d := dictInsert d trial_col (DVal.str loc0)
  let d := dictInsert d lat_col (DVal.num c0)
  let d := dictInsert d long_col (DVal.num c1)
  let d := dictInsert d DATES (DVal.str ti0)
  cehub_weather_codes_loop d item.codes

def cehub_weather_items_loop (trial_col lat_col long_col : String) :
    Dict → List JItem → Option Dict
  | d, [] => some d
  | d, item :: items =>
    match cehub_weather_item_step trial_col lat_col long_col d item with
    | none => none
    | some d' => cehub_weather_items_loop trial_col lat_col long_col d' items

/-- The method `CeHubConnector.convert_weather_json_to_dict` (starts from the empty dict). -/
def cehub_convert_weather_json_to_dict (trial_col lat_col long_col : String)
    (json_response : List JItem) : Option Dict :=
  cehub_weather_items_loop trial_col lat_col long_col [] json_response

/-- One iteration of the codes loop of
`CeHubConnector.convert_soil_json_to_dict` (lines 512-524): branch on
`level == 'aggregated'`; only that branch reads `startDepth`/`endDepth`. -/
def cehub_soil_code_step (d : Dict) (c : JCode) : Option Dict := do
  let dpi0 ← c.dataPerTimeInterval.head?
  let v0 ← dpi0.data.head?
  if c.level = LVL_AGGREGATE then
    let sd ← c.startDepth
    let ed ← c.endDepth
    pure (dictInsert d (soil_column_name c.variable_ c.level sd ed c.unit) (DVal.num v0))
  else
    pure (dictInsert d
      (pyReplace c.variable_ ' ' '_' ++ "_(" ++ c.level ++ ")_(" ++ c.unit ++ ")")
      (DVal.num v0))

def cehub_soil_codes_loop : Dict → List JCode → Option Dict
  | d, [] => some d
  | d, c :: cs =>
    match cehub_soil_code_step d c with
    | none => none
    | some d' => cehub_soil_codes_loop d' cs

/-- One iteration of the response loop of
`CeHubConnector.convert_soil_json_to_dict` (lines 500-524): no dates. -/
def cehub_soil_item_step (trial_col lat_col long_col : String)
    (d : Dict) (item : JItem) : Option Dict := do
  let coordinates ← item.geometry.coordinates.head?
  let loc0 ← item.geometry.locationNames.head?
  let c0 ← coordinates.head?
  let c1 ← coordinates.get? 1
  let d := dictInsert d trial_col (DVal.str loc0)
  let d := dictInsert d lat_col (DVal.num c0)
  let d := dictInsert d long_col (DVal.num c1)
  cehub_soil_codes_loop d item.codes

def cehub_soil_items_loop (trial_col lat_col long_col : String) :
    Dict → List JItem → Option Dict
  | d, [] => some d
  | d, item :: items =>
    match cehub_soil_item_step trial_col lat_col long_col d item with
    | none => none
    | some d' => cehub_soil_items_loop trial_col lat_col long_col d' items

/-- The method `CeHubConnector.convert_soil_json_to_dict` (starts from the empty dict). -/
def cehub_convert_soil_json_to_dict (trial_col lat_col long_col : String)
    (json_response : List JItem) : Option Dict :=
  cehub_soil_items_loop trial_col lat_col long_col [] json_response

/-! ## Time window derivation

`time_data` (meteoblue_data_extractor.py lines 491-529) and
`load_trial_data` (cehub_best_domains_trial.py lines 528-579) both compute,
per record, `min(dates) + timedelta(days=start_offset)` and `max(dates) +
timedelta(days=end_offset)` over the parsed datetime values of the
configured date columns, then truncate with `.dt.date`.  A parsed datetime
is a point in time, modelled as seconds since the epoch; adding a
`timedelta(days=n)` adds `n * 86400` seconds, and `.dt.date` truncation is
flooring to whole days. -/

def timedelta_days (n : Int) : Int := n * 86400

/-- Truncation `.dt.date`: the calendar day (floor division, Python semantics). -/
def toDate (ts : Int) : Int := Int.fdiv ts 86400

/-- Python `min(iterable)` (raises on an empty iterable). -/
def pyMin : List Int → Option Int
  | [] => none
  | x :: xs => some (xs.foldl min x)

/-- Python `max(iterable)` (raises on an empty iterable). -/
def pyMax : List Int → Option Int
  | [] => none
  | x :: xs => some (xs.foldl max x)

/-- The per-record window computed by `time_data`/`load_trial_data`: the
`Start_Date`/`End_Date` columns as calendar days. -/
def time_data_row (dates : List Int) (start_date_offset end_date_offset : Int) :
    Option (Int × Int) := do
  let mn ← pyMin dates
  let mx ← pyMax dates
  pure (toDate (mn + timedelta_days start_date_offset),
    toDate (mx + timedelta_days end_date_offset))

/-! ## `__main__` offset plumbing

`meteoblue_data_extractor.py` lines 566-607: the ini offsets are loaded into
`s_date_offset`/`e_date_offset`; the clamp (lines 577-582) assigns the
clamped value to the fresh names `start_date_offset`/`end_date_offset`,
which are never read again, and `time_data` is called with the raw
`s_date_offset`/`e_date_offset`.

`cehub_best_domains_trial.py` lines 606-636: the same clamp reassigns the
very variables `start_date_offset`/`end_date_offset` that are then passed to
`load_trial_data`. -/

/-- The dead assignments of the meteobe clamp (`some 0` when the branch
runs, the name stays unbound otherwise); recorded to mirror the source. -/
def meteobe_clamped_unused (s_date_offset e_date_offset : Int) : Option Int × Option Int :=
  (if s_date_offset > 0 then some 0 else none,
   if e_date_offset < 0 then some 0 else none)

/-- The offsets `meteoblue_data_extractor.py` actually passes to
`time_data`: the raw loaded values. -/
def meteobe_offsets_passed (s_date_offset e_date_offset : Int) : Int × Int :=
  (s_date_offset, e_date_offset)

/-- The per-record window the meteobe `__main__` flow derives. -/
def meteobe_main_time_window (s_date_offset e_date_offset : Int) (dates : List Int) :
    Option (Int × Int) :=
  time_data_row dates (meteobe_offsets_passed s_date_offset e_date_offset).1
    (meteobe_offsets_passed s_date_offset e_date_offset).2

/-- The offsets the cehub trial script passes to `load_trial_data`: clamped
in place. -/
def cehub_offsets_passed (start_date_offset end_date_offset : Int) : Int × Int :=
  (if start_date_offset > 0 then 0 else start_date_offset,
   if end_date_offset < 0 then 0 else end_date_offset)

/-- The per-record window the cehub `__main__` flow derives. -/
def cehub_main_time_window (start_date_offset end_date_offset : Int) (dates : List Int) :
    Option (Int × Int) :=
  time_data_row dates (cehub_offsets_passed start_date_offset end_date_offset).1
    (cehub_offsets_passed start_date_offset end_date_offset).2

/-! ## Helper lemmas -/

lemma pyUpper_DEFAULT : pyUpper DEFAULT = "DEFAULT" := by decide

/-! ## C1 — domain resolution and the missing-DEFAULT case -/

/-- C1 (counterexample): with a domain map that has no "DEFAULT" key,
resolution of an absent country code does not fail — it yields `None`
(`dict.get` of a missing key) and the weather query builder still produces
its five query blocks, with the resolved blocks carrying a null domain.
This contradicts the claim that a missing default is a fatal configuration
error raised before any query is produced. -/
theorem resolve_domain_missing_default_no_error :
    resolve_domain [("FR", "ERA5")] "BR" = none ∧
    (build_weather_data_query_best_dataset "BR" [("FR", "ERA5")] [("FR", "ERA5")]
      [("FR", "ERA5")]).length = 5 ∧
    ((build_weather_data_query_best_dataset "BR" [("FR", "ERA5")] [("FR", "ERA5")]
      [("FR", "ERA5")])[2]?).map QueryBlock.domain = some none := by
  refine ⟨?_, rfl, ?_⟩ <;> decide

/-- C1 (amended): for every domain map and every country code not present
as a key, resolution returns exactly the map's "DEFAULT" entry; if the
"DEFAULT" key is itself missing, resolution returns `None` without raising,
and the query builder still produces a five-block query. -/
theorem resolve_domain_default_fallback (m : List (String × String)) (cc : String)
    (habs : dictGet m cc = none) :
    resolve_domain m cc = dictGet m "DEFAULT" ∧
    (dictGet m "DEFAULT" = none →
      resolve_domain m cc = none ∧
      (build_weather_data_query_best_dataset cc m m m).length = 5) := by
  constructor
  · unfold resolve_domain
    rw [habs, pyUpper_DEFAULT]
  · intro hdef
    refine ⟨?_, rfl⟩
    unfold resolve_domain
    rw [habs, pyUpper_DEFAULT, hdef]

/-- C1 witness: a concrete absent country code falls back to the concrete
map's "DEFAULT" entry. -/
theorem resolve_domain_default_fallback_witness :
    resolve_domain [("FR", "NEMSGLOBAL"), ("DEFAULT", "ERA5")] "BR" = some "ERA5" :=
  ((resolve_domain_default_fallback [("FR", "NEMSGLOBAL"), ("DEFAULT", "ERA5")] "BR"
    (by decide)).1).trans (by decide)

/-! ## C5 — shape of the weather query -/

/-- C5: for every country code and domain maps, the weather query builder
returns exactly 5 blocks; block 1 (general atmosphere: NEMSGLOBAL, daily)
and block 5 (UV: ERA5, hourly, with the aggregate-to-daily-mean
transformation) do not depend on the country code (nor on the maps), and
the domains of blocks 2, 3 and 4 are the resolved temperature,
precipitation and wind domains respectively. -/
theorem build_weather_query_shape (cc cc' : String)
    (p t w p' t' w' : List (String × String)) :
    (build_weather_data_query_best_dataset cc p t w).length = 5 ∧
    (build_weather_data_query_best_dataset cc p t w)[0]? =
      (build_weather_data_query_best_dataset cc' p' t' w')[0]? ∧
    (build_weather_data_query_best_dataset cc p t w)[4]? =
      (build_weather_data_query_best_dataset cc' p' t' w')[4]? ∧
    ((build_weather_data_query_best_dataset cc p t w)[0]?).map QueryBlock.domain =
      some (some DOMAIN_NEMSGLOBAL) ∧
    ((build_weather_data_query_best_dataset cc p t w)[0]?).map QueryBlock.timeResolution =
      some (some TIME_RESOLUTION_DAILY) ∧
    ((build_weather_data_query_best_dataset cc p t w)[1]?).map QueryBlock.domain =
      some (resolve_domain t cc) ∧
    ((build_weather_data_query_best_dataset cc p t w)[2]?).map QueryBlock.domain =
      some (resolve_domain p cc) ∧
    ((build_weather_data_query_best_dataset cc p t w)[3]?).map QueryBlock.domain =
      some (resolve_domain w cc) ∧
    ((build_weather_data_query_best_dataset cc p t w)[4]?).map QueryBlock.domain =
      some (some DOMAIN_ERA5) ∧
    ((build_weather_data_query_best_dataset cc p t w)[4]?).map QueryBlock.timeResolution =
      some (some TIME_RESOLUTION_HOURLY) ∧
    ((build_weather_data_query_best_dataset cc p t w)[4]?).map QueryBlock.transformations =
      some [{ type := "aggregateDaily", aggregation := MEAN }] ∧
    ((build_weather_data_query_best_dataset cc p t w)[4]?).map QueryBlock.codes =
      some [{ code := UV_MEAN, level := LVL_SFC }] :=
  ⟨rfl, rfl, rfl, rfl, rfl, rfl, rfl, rfl, rfl, rfl, rfl, rfl⟩

/-! ## C6 — the two soil queries differ only in the depth fields -/

/-- C6: soil queries built with any two depth bands agree on everything
except the `startDepth`/`endDepth` fields: same domain, same per-entry
code/level/aggregation, and the organic-carbon-stocks entry (position 7 of
11) is exactly the same in both — fixed level "0-30 cm", no depth fields —
whatever depths the caller passes.  The other ten entries carry exactly the
caller's depths. -/
theorem build_soil_query_frame (s1 e1 s2 e2 : Int) :
    (build_soil_query s1 e1).domain = (build_soil_query s2 e2).domain ∧
    (build_soil_query s1 e1).timeResolution = (build_soil_query s2 e2).timeResolution ∧
    (build_soil_query s1 e1).gapFillDomain = (build_soil_query s2 e2).gapFillDomain ∧
    (build_soil_query s1 e1).transformations = (build_soil_query s2 e2).transformations ∧
    (build_soil_query s1 e1).codes.map (fun c => (c.code, c.level, c.aggregation)) =
      (build_soil_query s2 e2).codes.map (fun c => (c.code, c.level, c.aggregation)) ∧
    (build_soil_query s1 e1).codes[6]? =
      some { code := ORGANIC_CARBON_STOCKS, level := LVL_30 } ∧
    (build_soil_query s2 e2).codes[6]? =
      some { code := ORGANIC_CARBON_STOCKS, level := LVL_30 } ∧
    (build_soil_query s1 e1).codes.map (fun c => (c.startDepth, c.endDepth)) =
      [(some s1, some e1), (some s1, some e1), (some s1, some e1), (some s1, some e1),
       (some s1, some e1), (some s1, some e1), (none, none), (some s1, some e1),
       (some s1, some e1), (some s1, some e1), (some s1, some e1)] :=
  ⟨rfl, rfl, rfl, rfl, rfl, rfl, rfl, rfl⟩

/-! ## Minimum/maximum folds (Python `min`/`max` over a list) -/

lemma foldl_min_le_init (l : List Int) : ∀ a : Int, l.foldl min a ≤ a := by
  induction l with
  | nil => intro a; exact le_refl a
  | cons x xs ih =>
    intro a
    rw [List.foldl_cons]
    exact le_trans (ih (min a x)) (min_le_left a x)

lemma foldl_min_le_mem (l : List Int) : ∀ a d, d ∈ l → l.foldl min a ≤ d := by
  induction l with
  | nil => intro a d h; cases h
  | cons x xs ih =>
    intro a d h
    rw [List.foldl_cons]
    rcases List.mem_cons.mp h with rfl | h
    · exact le_trans (foldl_min_le_init xs (min a d)) (min_le_right a d)
    · exact ih (min a x) d h

lemma foldl_min_mem (l : List Int) : ∀ a, l.foldl min a = a ∨ l.foldl min a ∈ l := by
  induction l with
  | nil => intro a; left; rfl
  | cons x xs ih =>
    intro a
    rw [List.foldl_cons]
    rcases ih (min a x) with h | h
    · by_cases hax : a ≤ x
      · left; rw [h, min_eq_left hax]
      · right; rw [h, min_eq_right (le_of_not_le hax)]
        exact List.mem_cons_self x xs
    · right; exact List.mem_cons_of_mem x h

lemma foldl_max_init_le (l : List Int) : ∀ a : Int, a ≤ l.foldl max a := by
  induction l with
  | nil => intro a; exact le_refl a
  | cons x xs ih =>
    intro a
    rw [List.foldl_cons]
    exact le_trans (le_max_left a x) (ih (max a x))

lemma foldl_max_mem_le (l : List Int) : ∀ a d, d ∈ l → d ≤ l.foldl max a := by
  induction l with
  | nil => intro a d h; cases h
  | cons x xs ih =>
    intro a d h
    rw [List.foldl_cons]
    rcases List.mem_cons.mp h with rfl | h
    · exact le_trans (le_max_right a d) (foldl_max_init_le xs (max a d))
    · exact ih (max a x) d h

lemma foldl_max_mem (l : List Int) : ∀ a, l.foldl max a = a ∨ l.foldl max a ∈ l := by
  induction l with
  | nil => intro a; left; rfl
  | cons x xs ih =>
    intro a
    rw [List.foldl_cons]
    rcases ih (max a x) with h | h
    · by_cases hax : x ≤ a
      · left; rw [h, max_eq_left hax]
      · right; rw [h, max_eq_right (le_of_not_le hax)]
        exact List.mem_cons_self x xs
    · right; exact List.mem_cons_of_mem x h

/-- The `.dt.date` truncation commutes with adding a whole-day timedelta. -/
lemma toDate_add_days (t n : Int) : toDate (t + timedelta_days n) = toDate t + n := by
  unfold toDate timedelta_days
  rw [Int.fdiv_eq_ediv _ (by norm_num), Int.fdiv_eq_ediv _ (by norm_num),
    Int.add_mul_ediv_right t n (by norm_num : (86400 : Int) ≠ 0)]

/-! ## C8 — the derived time window -/

/-- C8: for every record with a non-empty list of parsed date values and any
offsets, the derived window is `min(values) + start_offset` days and
`max(values) + end_offset` days, truncated to calendar dates; `pyMin`/
`pyMax` return genuine extrema of the list, and the truncation of a
midnight-shifted datetime is exactly the date of the extremum shifted by
the whole-day offset. -/
theorem time_data_row_window (dates : List Int) (s e : Int) (hne : dates ≠ []) :
    ∃ mn mx,
      pyMin dates = some mn ∧ mn ∈ dates ∧ (∀ d ∈ dates, mn ≤ d) ∧
      pyMax dates = some mx ∧ mx ∈ dates ∧ (∀ d ∈ dates, d ≤ mx) ∧
      time_data_row dates s e =
        some (toDate (mn + timedelta_days s), toDate (mx + timedelta_days e)) ∧
      toDate (mn + timedelta_days s) = toDate mn + s ∧
      toDate (mx + timedelta_days e) = toDate mx + e := by
  match dates with
  | [] => exact absurd rfl hne
  | x :: xs =>
    refine ⟨xs.foldl min x, xs.foldl max x, rfl, ?_, ?_, rfl, ?_, ?_, rfl,
      toDate_add_days _ s, toDate_add_days _ e⟩
    · rcases foldl_min_mem xs x with h | h
      · rw [h]; exact List.mem_cons_self x xs
      · exact List.mem_cons_of_mem x h
    · intro d hd
      rcases List.mem_cons.mp hd with rfl | hd
      · exact foldl_min_le_init xs d
      · exact foldl_min_le_mem xs x d hd
    · rcases foldl_max_mem xs x with h | h
      · rw [h]; exact List.mem_cons_self x xs
      · exact List.mem_cons_of_mem x h
    · intro d hd
      rcases List.mem_cons.mp hd with rfl | hd
      · exact foldl_max_init_le xs d
      · exact foldl_max_mem_le xs x d hd

/-- C8 witness: three concrete datetimes (days 10, 3 and 7 since the epoch,
the first with a 1-hour time-of-day component) with the spec's example
offsets -5 and +10 give the window (day -2 = 3-5, day 20 = 10+10). -/
theorem time_data_row_window_witness :
    ([86400 * 10 + 3600, 86400 * 3, 86400 * 7] : List Int) ≠ [] ∧
    time_data_row [86400 * 10 + 3600, 86400 * 3, 86400 * 7] (-5) 10 = some (-2, 20) := by
  refine ⟨by decide, ?_⟩
  obtain ⟨mn, mx, hmn, -, -, hmx, -, -, hrow, hs, he⟩ :=
    time_data_row_window [86400 * 10 + 3600, 86400 * 3, 86400 * 7] (-5) 10 (by decide)
  have hmn' : mn = 86400 * 3 := by
    have : pyMin [86400 * 10 + 3600, 86400 * 3, 86400 * 7] = some (86400 * 3) := by decide
    exact Option.some.inj (hmn.symm.trans this)
  have hmx' : mx = 86400 * 10 + 3600 := by
    have : pyMax [86400 * 10 + 3600, 86400 * 3, 86400 * 7] = some (86400 * 10 + 3600) := by
      decide
    exact Option.some.inj (hmx.symm.trans this)
  rw [hrow, hs, he, hmn', hmx']
  decide

/-! ## C2 — the offset clamp is dead code in the packaged extractor -/

/-- C2 (code bug): with a configured `start_date_offset = 5` and
`end_date_offset = -3` and one record whose only date of interest is
midnight of day 100, the packaged extractor's `__main__` computes the
clamped values (both 0) into the unused names `start_date_offset`/
`end_date_offset`, but passes the raw `s_date_offset`/`e_date_offset` to
`time_data`, so the derived window is (105, 97): the start date is after
the earliest date of interest and the end date before the latest, exactly
what the clamp was meant to prevent (see the comment at lines 575-576 of
`meteoblue_data_extractor.py`).  The trial script's `__main__` clamps the
very variables it passes on and derives (100, 100). -/
theorem meteobe_clamp_dead_code :
    meteobe_clamped_unused 5 (-3) = (some 0, some 0) ∧
    meteobe_offsets_passed 5 (-3) = (5, -3) ∧
    meteobe_main_time_window 5 (-3) [86400 * 100] = some (105, 97) ∧
    toDate (86400 * 100) = 100 ∧
    cehub_offsets_passed 5 (-3) = (0, 0) ∧
    cehub_main_time_window 5 (-3) [86400 * 100] = some (100, 100) := by
  refine ⟨rfl, rfl, ?_, ?_, rfl, ?_⟩ <;> decide

/-! ## C3 — weather column-name synthesis -/

/-- A concrete wind-direction protobuf response: the wind-direction code is
requested with no aggregation, so its proto3 aggregation field is the empty
string. -/
def wind_direction_response : PbResult :=
  { geometries := [
      { lats := [47]
        lons := [8]
        timeIntervals := [{ start := 0, end_ := 86400, stride := 86400 }]
        codes := [
          { code := 735
            level := "10 m above gnd"
            aggregation := ""
            unit := "°"
            startDepth := 0
            endDepth := 0
            timeIntervals := [{ data := [270] }] }] }] }

/-- C3 (counterexample): a weather response whose only returned code is the
wind-direction code makes the protobuf weather flattener fail (the `agg[0]`
access on the empty aggregation), instead of producing a column whose
middle segment is the raw level string as the claim states. -/
theorem wind_direction_no_level_fallback :
    convert_weather_json_to_dict [{ code := 735, variable_ := "Wind direction" }]
      "Latitude" "Longitude" wind_direction_response "ID" "r1" = none := by decide

/-- C3 (amended): the weather flattener synthesizes the column name as the
variable with spaces replaced by underscores, then the aggregation with its
first letter uppercased in parentheses, then the unit in parentheses; there
is no level-string fallback for the non-aggregated wind-direction variable:
an empty aggregation makes the name synthesis (and hence the record) fail,
and the JSON script renders a null aggregation as the string "None". -/
theorem weather_column_name_synthesis :
    weather_column_name "Temperature" "mean" "C" = some "Temperature_(Mean)_(C)" ∧
    weather_column_name "Wind speed" "max" "km/h" = some "Wind_speed_(Max)_(km/h)" ∧
    (∀ var unit, weather_column_name var "" unit = none) ∧
    weather_column_name "Wind direction" (pyStr none) "°" =
      some "Wind_direction_(None)_(°)" := by
  refine ⟨by decide, by decide, fun var unit => rfl, by decide⟩

/-! ## C7 — soil column-name synthesis branches on the level string -/

/-- C7: the soil flattener branches exactly on whether the returned level
equals "aggregated": if so, the middle segment is the start-end depth
range; otherwise it is the raw level string (and the depths are ignored). -/
theorem soil_column_name_branches (var level : String) (sd ed : Int) (unit : String) :
    (level = LVL_AGGREGATE →
      soil_column_name var level sd ed unit =
        pyReplace var ' ' '_' ++ "_(" ++ toString sd ++ "-" ++ toString ed ++ ")_(" ++
          unit ++ ")") ∧
    (level ≠ LVL_AGGREGATE →
      soil_column_name var level sd ed unit =
        pyReplace var ' ' '_' ++ "_(" ++ level ++ ")_(" ++ unit ++ ")") := by
  constructor <;> intro h <;> simp [soil_column_name, h]

/-- C7 witness: the spec's two examples, bit-exact — and the non-aggregated
branch ignores the depths passed by the caller (0 and 60 here, yet the
label stays "0-30 cm"). -/
theorem soil_column_name_branches_witness :
    soil_column_name "Clay content" "aggregated" 0 30 "%" = "Clay_content_(0-30)_(%)" ∧
    soil_column_name "Organic carbon stocks" "0-30 cm" 0 60 "%" =
      "Organic_carbon_stocks_(0-30 cm)_(%)" :=
  ⟨((soil_column_name_branches "Clay content" "aggregated" 0 30 "%").1 rfl).trans
      (by decide),
   ((soil_column_name_branches "Organic carbon stocks" "0-30 cm" 0 60 "%").2
      (by decide)).trans (by decide)⟩

/-! ## C10 — codes-table lookup: silent default and last-match-wins -/

lemma lookup_foldl_no_match (l : List CodeEntry) (code : Int) :
    ∀ acc, (∀ e ∈ l, e.code ≠ code) →
      l.foldl (fun variable_ d => if d.code = code then d.variable_ else variable_) acc =
        acc := by
  induction l with
  | nil => intro acc _; rfl
  | cons x xs ih =>
    intro acc h
    rw [List.foldl_cons, if_neg (h x (List.mem_cons_self x xs))]
    exact ih acc (fun e he => h e (List.mem_cons_of_mem x he))

/-- C10: (i) a code absent from the loaded table looks up to the empty
string — no exception; (ii) when several entries share the code, the
variable of the last matching entry wins, because the scan continues over
the whole list; (iii) consequently the weather flattener synthesizes a
column name whose variable segment is empty for an unknown code. -/
theorem lookup_variable_by_code_behaviour :
    (∀ (codes_lst : List CodeEntry) (code : Int),
      (∀ d ∈ codes_lst, d.code ≠ code) → lookup_variable_by_code codes_lst code = "") ∧
    (∀ (l1 l2 : List CodeEntry) (d : CodeEntry) (code : Int),
      d.code = code → (∀ e ∈ l2, e.code ≠ code) →
      lookup_variable_by_code (l1 ++ d :: l2) code = d.variable_) ∧
    (∀ (codes_lst : List CodeEntry) (code : Int) (unit : String),
      (∀ d ∈ codes_lst, d.code ≠ code) →
      weather_column_name (lookup_variable_by_code codes_lst code) "mean" unit =
        some ("_(Mean)_(" ++ unit ++ ")")) := by
  have habs : ∀ (codes_lst : List CodeEntry) (code : Int),
      (∀ d ∈ codes_lst, d.code ≠ code) → lookup_variable_by_code codes_lst code = "" :=
    fun codes_lst code h => lookup_foldl_no_match codes_lst code "" h
  refine ⟨habs, ?_, ?_⟩
  · intro l1 l2 d code hd h2
    unfold lookup_variable_by_code
    rw [List.foldl_append, List.foldl_cons, if_pos hd]
    exact lookup_foldl_no_match l2 code d.variable_ h2
  · intro codes_lst code unit h
    rw [habs codes_lst code h]
    rfl

/-- C10 witness: code 99 is absent from a two-entry table (empty string,
and an empty variable segment in the synthesized column); code 11 appears
twice and the later entry's variable is returned. -/
theorem lookup_variable_by_code_behaviour_witness :
    lookup_variable_by_code [{ code := 11, variable_ := "Temperature" },
      { code := 61, variable_ := "Precipitation" }] 99 = "" ∧
    lookup_variable_by_code [{ code := 11, variable_ := "Temp A" },
      { code := 11, variable_ := "Temp B" }] 11 = "Temp B" ∧
    weather_column_name (lookup_variable_by_code [{ code := 11, variable_ := "Temperature" },
      { code := 61, variable_ := "Precipitation" }] 99) "mean" "C" = some "_(Mean)_(C)" :=
  ⟨lookup_variable_by_code_behaviour.1 _ 99 (by decide),
   lookup_variable_by_code_behaviour.2.1 [{ code := 11, variable_ := "Temp A" }] []
     { code := 11, variable_ := "Temp B" } 11 rfl (by decide),
   (lookup_variable_by_code_behaviour.2.2 _ 99 "C" (by decide)).trans (by decide)⟩

/-! ## Dict lemmas -/

lemma dictLookup_map_overwrite (k : String) (v : DVal) :
    ∀ d : Dict, d.any (fun p => p.1 == k) = true →
      dictLookup (d.map (fun p => if p.1 == k then (k, v) else p)) k = some v := by
  intro d
  induction d with
  | nil => intro h; simp at h
  | cons x xs ih =>
    intro h
    by_cases hx : x.1 == k
    · simp [dictLookup, List.find?, hx]
    · have hx' : (x.1 == k) = false := by simpa using hx
      have hxs : xs.any (fun p => p.1 == k) = true := by simpa [hx'] using h
      have ihx := ih hxs
      simpa [dictLookup, List.find?, hx'] using ihx

lemma dictLookup_append_new (k : String) (v : DVal) :
    ∀ d : Dict, d.any (fun p => p.1 == k) = false →
      dictLookup (d ++ [(k, v)]) k = some v := by
  intro d
  induction d with
  | nil => intro _; simp [dictLookup, List.find?]
  | cons x xs ih =>
    intro h
    simp only [List.any_cons, Bool.or_eq_false_iff] at h
    simp only [dictLookup, List.cons_append]
    rw [List.find?_cons_of_neg _ (by simpa using h.1)]
    exact ih (by simp [h.2])

/-- Assigning `d[k] = v` makes a later `d[k]` read `v` back. -/
lemma dictLookup_insert (d : Dict) (k : String) (v : DVal) :
    dictLookup (dictInsert d k v) k = some v := by
  unfold dictInsert
  cases h : d.any (fun p => p.1 == k) with
  | true => simpa using dictLookup_map_overwrite k v d h
  | false => simpa using dictLookup_append_new k v d h

/-! ## C9 — empty aggregation strings abort the protobuf weather flattener -/

lemma weather_code_step_empty_agg (codes_lst : List CodeEntry) (d : Dict) (c : PbCode)
    (h : c.aggregation = "") : weather_code_step codes_lst d c = none := by
  have hname : weather_column_name (lookup_variable_by_code codes_lst c.code)
      c.aggregation c.unit = none := by
    rw [h]; rfl
  unfold weather_code_step
  cases hti : c.timeIntervals.head? with
  | none => rfl
  | some ti0 => simp [hti, hname]

lemma weather_codes_loop_empty_agg (codes_lst : List CodeEntry) :
    ∀ (cs : List PbCode) (d : Dict), (∃ c ∈ cs, c.aggregation = "") →
      weather_codes_loop codes_lst d cs = none := by
  intro cs
  induction cs with
  | nil =>
    intro d h
    obtain ⟨c, hc, -⟩ := h
    cases hc
  | cons c cs ih =>
    intro d h
    obtain ⟨c', hc', hagg⟩ := h
    rcases List.mem_cons.mp hc' with rfl | hmem
    · simp only [weather_codes_loop, weather_code_step_empty_agg codes_lst d c' hagg]
    · simp only [weather_codes_loop]
      cases hstep : weather_code_step codes_lst d c with
      | none => rfl
      | some d' => exact ih d' ⟨c', hmem, hagg⟩

lemma weather_geometry_step_empty_agg (codes_lst : List CodeEntry)
    (lat_col lon_col : String) (d : Dict) (g : PbGeometry)
    (h : ∃ c ∈ g.codes, c.aggregation = "") :
    weather_geometry_step codes_lst lat_col lon_col d g = none := by
  unfold weather_geometry_step
  cases h1 : g.lats.head? with
  | none => rfl
  | some lat =>
    cases h2 : g.lons.head? with
    | none => simp [h2]
    | some lon =>
      cases h3 : g.timeIntervals.head? with
      | none => simp [h2, h3]
      | some ti0 =>
        cases h4 : convert_timeinterval_to_list ti0.start ti0.end_ ti0.stride with
        | none => simp [h2, h3, h4]
        | some dates =>
          simp only [h2, h3, h4, Option.bind_eq_bind, Option.some_bind]
          exact weather_codes_loop_empty_agg codes_lst g.codes _ h

lemma weather_geometries_loop_empty_agg (codes_lst : List CodeEntry)
    (lat_col lon_col : String) :
    ∀ (gs : List PbGeometry) (d : Dict),
      (∃ g ∈ gs, ∃ c ∈ g.codes, c.aggregation = "") →
      weather_geometries_loop codes_lst lat_col lon_col d gs = none := by
  intro gs
  induction gs with
  | nil =>
    intro d h
    obtain ⟨g, hg, -⟩ := h
    cases hg
  | cons g gs ih =>
    intro d h
    obtain ⟨g', hg', hbad⟩ := h
    rcases List.mem_cons.mp hg' with rfl | hmem
    · simp only [weather_geometries_loop,
        weather_geometry_step_empty_agg codes_lst lat_col lon_col d g' hbad]
    · simp only [weather_geometries_loop]
      cases hstep : weather_geometry_step codes_lst lat_col lon_col d g with
      | none => rfl
      | some d' => exact ih d' ⟨g', hmem, hbad⟩

/-- C9: whenever some returned code of some geometry carries an empty
aggregation string (as the wind-direction code does, being requested with
no aggregation), the protobuf weather flattener yields no dictionary at
all — the `agg[0]` access raises, the record is counted as failed — for
every codes table, column bindings and response around it. -/
theorem convert_weather_empty_aggregation_fails (codes_lst : List CodeEntry)
    (lat_col lon_col : String) (result : PbResult) (id_col id_value : String)
    (h : ∃ g ∈ result.geometries, ∃ c ∈ g.codes, c.aggregation = "") :
    convert_weather_json_to_dict codes_lst lat_col lon_col result id_col id_value =
      none :=
  weather_geometries_loop_empty_agg codes_lst lat_col lon_col result.geometries _ h

/-- A response mixing an aggregated humidity code with the non-aggregated
wind-direction code (empty protobuf aggregation). -/
def mixed_wind_response_geometry : PbGeometry :=
  { lats := [52]
    lons := [13]
    timeIntervals := [{ start := 0, end_ := 86400, stride := 86400 }]
    codes := [
      { code := 52
        level := "2 m above gnd"
        aggregation := "mean"
        unit := "%"
        startDepth := 0
        endDepth := 0
        timeIntervals := [{ data := [80] }] },
      { code := 735
        level := "10 m above gnd"
        aggregation := ""
        unit := "°"
        startDepth := 0
        endDepth := 0
        timeIntervals := [{ data := [270] }] }] }

/-- C9 witness: the concrete mixed response fails as a whole even though
its first code is perfectly well-formed. -/
theorem convert_weather_empty_aggregation_fails_witness :
    convert_weather_json_to_dict
      [{ code := 52, variable_ := "Humidity" }, { code := 735, variable_ := "Wind direction" }]
      "Latitude" "Longitude" { geometries := [mixed_wind_response_geometry] }
      "ID" "w1" = none :=
  convert_weather_empty_aggregation_fails _ _ _ _ _ _
    ⟨mixed_wind_response_geometry, by decide,
     { code := 735, level := "10 m above gnd", aggregation := "", unit := "°",
       startDepth := 0, endDepth := 0, timeIntervals := [{ data := [270] }] },
     by decide, rfl⟩

/-! ## C4 — what the flatteners store per returned code -/

/-- A protobuf temperature response whose (single) code carries a
two-point data array over a two-day window. -/
def temperature_two_point_response : PbResult :=
  { geometries := [
      { lats := [47]
        lons := [8]
        timeIntervals := [{ start := 0, end_ := 172800, stride := 86400 }]
        codes := [
          { code := 11
            level := "2 m elevation corrected"
            aggregation := "mean"
            unit := "C"
            startDepth := 0
            endDepth := 0
            timeIntervals := [{ data := [21, 22] }] }] }] }

/-- C4 (counterexample): the protobuf weather flattener does not store one
scalar data point per code — on a two-point response it stores the entire
two-element data array of the code's first time interval as the column
value, and the `Dates` entry is the two-element list of expanded
timestamps, not a single representative timestamp. -/
theorem protobuf_flattener_stores_whole_array :
    (convert_weather_json_to_dict [{ code := 11, variable_ := "Temperature" }]
      "Latitude" "Longitude" temperature_two_point_response "ID" "r1").bind
        (fun d => dictLookup d "Temperature_(Mean)_(C)") =
      some (DVal.numList [21, 22]) ∧
    (convert_weather_json_to_dict [{ code := 11, variable_ := "Temperature" }]
      "Latitude" "Longitude" temperature_two_point_response "ID" "r1").bind
        (fun d => dictLookup d DATES) = some (DVal.timestampList [0, 86400]) ∧
    DVal.numList [21, 22] ≠ DVal.num 21 := by
  refine ⟨by decide, by decide, by decide⟩

/-- C4 (amended): per returned code, the JSON-script flatteners store the
first element of the code's first interval's data array as a scalar, and
the JSON weather flattener records the single first time-interval label;
the protobuf-script flatteners instead store the entire data array of the
code's first time interval, and the protobuf weather flattener records the
whole list of timestamps expanded from the first geometry time interval.
In all four, only the first time interval is consulted. -/
theorem flatteners_first_interval_policy :
    (∀ (d : Dict) (c : JCode) (i0 : JDataPerInterval) (v : Int),
      c.dataPerTimeInterval.head? = some i0 → i0.data.head? = some v →
      cehub_weather_code_step d c =
        (weather_column_name c.variable_ (pyStr c.aggregation) c.unit).map
          (fun name => dictInsert d name (DVal.num v))) ∧
    (∀ (d : Dict) (c : JCode) (i0 : JDataPerInterval) (v : Int) (d' : Dict),
      c.dataPerTimeInterval.head? = some i0 → i0.data.head? = some v →
      cehub_soil_code_step d c = some d' →
      ∃ name, d' = dictInsert d name (DVal.num v)) ∧
    (∀ (codes_lst : List CodeEntry) (d : Dict) (c : PbCode) (ti0 : PbCodeTimeInterval),
      c.timeIntervals.head? = some ti0 →
      weather_code_step codes_lst d c =
        (weather_column_name (lookup_variable_by_code codes_lst c.code) c.aggregation
          c.unit).map (fun name => dictInsert d name (DVal.numList ti0.data))) ∧
    (∀ (codes_lst : List CodeEntry) (d : Dict) (c : PbCode) (ti0 : PbCodeTimeInterval),
      c.timeIntervals.head? = some ti0 →
      soil_code_step codes_lst d c =
        some (dictInsert d
          (soil_column_name (lookup_variable_by_code codes_lst c.code) c.level
            c.startDepth c.endDepth c.unit)
          (DVal.numList ti0.data))) ∧
    (∀ (trial_col lat_col long_col : String) (d : Dict) (item : JItem)
       (co : List Int) (loc : String) (c0 c1 : Int) (ti0 : String),
      item.geometry.coordinates.head? = some co →
      item.geometry.locationNames.head? = some loc →
      co.head? = some c0 → co.get? 1 = some c1 →
      item.timeIntervals.head? = some ti0 →
      ∃ d0, cehub_weather_item_step trial_col lat_col long_col d item =
          cehub_weather_codes_loop d0 item.codes ∧
        dictLookup d0 DATES = some (DVal.str ti0)) ∧
    (∀ (codes_lst : List CodeEntry) (lat_col lon_col : String) (d : Dict)
       (g : PbGeometry) (la lo : Int) (t0 : PbTimeInterval) (ds : List Int),
      g.lats.head? = some la → g.lons.head? = some lo →
      g.timeIntervals.head? = some t0 →
      convert_timeinterval_to_list t0.start t0.end_ t0.stride = some ds →
      ∃ d0, weather_geometry_step codes_lst lat_col lon_col d g =
          weather_codes_loop codes_lst d0 g.codes ∧
        dictLookup d0 DATES = some (DVal.timestampList ds)) := by
  refine ⟨?_, ?_, ?_, ?_, ?_, ?_⟩
  · intro d c i0 v h1 h2
    unfold cehub_weather_code_step
    rw [h1]
    simp only [Option.bind_eq_bind, Option.some_bind]
    rw [h2]
    simp only [Option.some_bind]
    cases hw : weather_column_name c.variable_ (pyStr c.aggregation) c.unit <;>
      simp [hw]
  · intro d c i0 v d' h1 h2 hstep
    unfold cehub_soil_code_step at hstep
    rw [h1] at hstep
    simp only [Option.bind_eq_bind, Option.some_bind] at hstep
    rw [h2] at hstep
    simp only [Option.some_bind] at hstep
    by_cases hl : c.level = LVL_AGGREGATE
    · rw [if_pos hl] at hstep
      cases hsd : c.startDepth with
      | none => rw [hsd] at hstep; simp at hstep
      | some sd =>
        rw [hsd] at hstep
        simp only [Option.some_bind] at hstep
        cases hed : c.endDepth with
        | none => rw [hed] at hstep; simp at hstep
        | some ed =>
          rw [hed] at hstep
          simp only [Option.some_bind, pure, Option.some.injEq] at hstep
          exact ⟨_, hstep.symm⟩
    · rw [if_neg hl] at hstep
      simp only [pure, Option.some.injEq] at hstep
      exact ⟨_, hstep.symm⟩
  · intro codes_lst d c ti0 h1
    unfold weather_code_step
    rw [h1]
    simp only [Option.bind_eq_bind, Option.some_bind]
    cases hw : weather_column_name (lookup_variable_by_code codes_lst c.code)
        c.aggregation c.unit <;> simp [hw]
  · intro codes_lst d c ti0 h1
    unfold soil_code_step
    rw [h1]
    simp
  · intro trial_col lat_col long_col d item co loc c0 c1 ti0 h1 h2 h3 h4 h5
    unfold cehub_weather_item_step
    rw [h1]
    simp only [Option.bind_eq_bind, Option.some_bind]
    rw [h2]
    simp only [Option.some_bind]
    rw [h3]
    simp only [Option.some_bind]
    rw [h4]
    simp only [Option.some_bind]
    rw [h5]
    simp only [Option.some_bind]
    exact ⟨_, rfl, dictLookup_insert _ _ _⟩
  · intro codes_lst lat_col lon_col d g la lo t0 ds h1 h2 h3 h4
    unfold weather_geometry_step
    rw [h1]
    simp only [Option.bind_eq_bind, Option.some_bind]
    rw [h2]
    simp only [Option.some_bind]
    rw [h3]
    simp only [Option.some_bind]
    rw [h4]
    simp only [Option.some_bind]
    exact ⟨_, rfl, dictLookup_insert _ _ _⟩

/-- Concrete JSON weather code for the C4 witness. -/
def jc_humidity : JCode :=
  { code := 52
    variable_ := "Humidity"
    aggregation := some "mean"
    unit := "%"
    level := "2 m above gnd"
    startDepth := none
    endDepth := none
    dataPerTimeInterval := [{ data := [5, 6] }] }

/-- Concrete JSON soil code for the C4 witness. -/
def jc_clay : JCode :=
  { code := 803
    variable_ := "Clay content"
    aggregation := none
    unit := "%"
    level := "aggregated"
    startDepth := some 0
    endDepth := some 30
    dataPerTimeInterval := [{ data := [7, 8] }] }

/-- Concrete protobuf weather code for the C4 witness. -/
def pb_humidity : PbCode :=
  { code := 52
    level := "2 m above gnd"
    aggregation := "mean"
    unit := "%"
    startDepth := 0
    endDepth := 0
    timeIntervals := [{ data := [5, 6] }] }

/-- Concrete protobuf soil code for the C4 witness. -/
def pb_clay : PbCode :=
  { code := 803
    level := "aggregated"
    aggregation := ""
    unit := "%"
    startDepth := 0
    endDepth := 30
    timeIntervals := [{ data := [7, 8] }] }

/-- Concrete JSON response item (no codes) for the C4 witness. -/
def j_item_plain : JItem :=
  { geometry := { coordinates := [[8, 47]], locationNames := ["t1"] }
    timeIntervals := ["20200101T0000"]
    codes := [] }

/-- Concrete protobuf geometry (no codes) for the C4 witness. -/
def pb_geom_plain : PbGeometry :=
  { lats := [47]
    lons := [8]
    timeIntervals := [{ start := 0, end_ := 172800, stride := 86400 }]
    codes := [] }

/-- C4 witness: each policy conjunct evaluated at a concrete input — the
JSON steps store the scalar 5 (resp. 7), the protobuf steps store the whole
arrays [5, 6] (resp. [7, 8]), the JSON item records the single label and
the protobuf geometry the expanded two-timestamp list. -/
theorem flatteners_first_interval_policy_witness :
    cehub_weather_code_step [] jc_humidity =
      some [("Humidity_(Mean)_(%)", DVal.num 5)] ∧
    (∃ name, ([("Clay_content_(0-30)_(%)", DVal.num 7)] : Dict) =
      dictInsert [] name (DVal.num 7)) ∧
    weather_code_step [{ code := 52, variable_ := "Humidity" }] [] pb_humidity =
      some [("Humidity_(Mean)_(%)", DVal.numList [5, 6])] ∧
    soil_code_step [{ code := 803, variable_ := "Clay content" }] [] pb_clay =
      some [("Clay_content_(0-30)_(%)", DVal.numList [7, 8])] ∧
    (∃ d0, cehub_weather_item_step "Trial" "Lat" "Lon" [] j_item_plain =
        cehub_weather_codes_loop d0 j_item_plain.codes ∧
      dictLookup d0 DATES = some (DVal.str "20200101T0000")) ∧
    (∃ d0, weather_geometry_step [] "Lat" "Lon" [] pb_geom_plain =
        weather_codes_loop [] d0 pb_geom_plain.codes ∧
      dictLookup d0 DATES = some (DVal.timestampList [0, 86400])) :=
  ⟨(flatteners_first_interval_policy.1 [] jc_humidity { data := [5, 6] } 5 rfl rfl).trans
      (by decide),
   flatteners_first_interval_policy.2.1 [] jc_clay { data := [7, 8] } 7
     [("Clay_content_(0-30)_(%)", DVal.num 7)] rfl rfl (by decide),
   (flatteners_first_interval_policy.2.2.1 [{ code := 52, variable_ := "Humidity" }] []
     pb_humidity { data := [5, 6] } rfl).trans (by decide),
   (flatteners_first_interval_policy.2.2.2.1 [{ code := 803, variable_ := "Clay content" }]
     [] pb_clay { data := [7, 8] } rfl).trans (by decide),
   flatteners_first_interval_policy.2.2.2.2.1 "Trial" "Lat" "Lon" [] j_item_plain
     [8, 47] "t1" 8 47 "20200101T0000" rfl rfl rfl rfl rfl,
   flatteners_first_interval_policy.2.2.2.2.2 [] "Lat" "Lon" [] pb_geom_plain
     47 8 { start := 0, end_ := 172800, stride := 86400 } [0, 86400] rfl rfl rfl
     (by decide)⟩

end Meteobe
